import Mathlib

/-!
Shallow embedding of `python/paddle/vision/transforms/functional.py`
(the vision transform dispatch layer of PaddlePaddle) together with
proofs about it.

Modelling decisions:

* Image values are modelled by their representation only (`Img`): the
  dispatcher classifies by representation kind and never inspects pixel
  data, so a grid-image (PIL) is modelled by its `(width, height)` size,
  an array-image (ndarray) and a tensor-image by their shape lists.
* Numeric parameters of the dispatch layer are modelled over `ℚ`: all
  arithmetic the dispatcher performs on them (halving integer extents,
  subtracting offsets) is exact in binary floating point, so `ℚ` is a
  faithful model of the Python float computations.
* The trigonometric affine-matrix builder `_get_affine_matrix` is
  modelled over `ℝ`.
* Python exceptions are modelled by `Except Err`; per the spec's error
  taxonomy, the image-classification failure (a TypeError naming the
  image argument) is `Err.unsupportedType` and parameter-normalization
  failures (TypeError/ValueError on a parameter) are
  `Err.invalidArgument`.
-/

namespace PaddleF

/-- The representation of an image value handed to a public operation:
a PIL grid-image with its `(width, height)` size, a numpy array-image
with its shape, a paddle tensor-image with its shape, or a value of any
other type. -/
inductive Img where
  | pil (width height : ℕ)
  | ndarray (shape : List ℕ)
  | tensor (shape : List ℕ)
  | other
  deriving DecidableEq

/-- The three representation kinds of the data model. -/
inductive Kind where
  | grid
  | array
  | tensorK
  deriving DecidableEq

/-- The three backend modules: `functional_pil`, `functional_cv2`,
`functional_tensor`. -/
inductive Backend where
  | pilB
  | cv2B
  | tB
  deriving DecidableEq

/-- Error taxonomy of the spec: `UnsupportedType` for a failed image
classification, `InvalidArgument` for a failed parameter normalization. -/
inductive Err where
  | unsupportedType
  | invalidArgument
  deriving DecidableEq

/-- Decidable equality of modelled results. -/
instance {ε α : Type} [DecidableEq ε] [DecidableEq α] :
    DecidableEq (Except ε α) := fun a b =>
  match a, b with
  | .ok x, .ok y => decidable_of_iff (x = y) (by simp)
  | .error x, .error y => decidable_of_iff (x = y) (by simp)
  | .ok _, .error _ => .isFalse (by simp)
  | .error _, .ok _ => .isFalse (by simp)

/-- Line 59: `_is_pil_image(img)` — true exactly on PIL images. -/
def isPilImage : Img → Bool
  | .pil _ _ => true
  | _ => false

/-- Line 63: `_is_tensor_image(img)` — true exactly on tensors. -/
def isTensorImage : Img → Bool
  | .tensor _ => true
  | _ => false

/-- Line 70: `_is_numpy_image(img)` — an ndarray whose rank is 2 or 3. -/
def isNumpyImage : Img → Bool
  | .ndarray s => s.length == 2 || s.length == 3
  | _ => false

/-- The classification test repeated at the top of the guarded public
operations: `_is_pil_image(img) or _is_numpy_image(img) or
_is_tensor_image(img)`. -/
def imageTypeOk (img : Img) : Bool :=
  isPilImage img || isNumpyImage img || isTensorImage img

/-- The representation kind of a classified image value, `none` when the
value is not one of the three recognized representations (including an
ndarray whose rank is not 2 or 3). -/
def kindOf : Img → Option Kind
  | .pil _ _ => some .grid
  | .ndarray s => if s.length = 2 ∨ s.length = 3 then some .array else none
  | .tensor _ => some .tensorK
  | .other => none

/-- Modelled from the spec: the three backend modules are outside this
file; each backend service resamples in its own representation and
returns a value of that representation kind (`functional_pil` returns
grid-images, `functional_cv2` array-images, `functional_tensor`
tensor-images). -/
def backendKind : Backend → Kind
  | .pilB => .grid
  | .cv2B => .array
  | .tB => .tensorK

/-- Lines 113-125: `to_tensor` dispatch, tracked at the level of the
result's representation kind. Modelled from the spec for the backend
branches: `F_pil.to_tensor` and `F_cv2.to_tensor` (outside this file)
produce tensors; the in-source tensor branch (line 125) returns the
input tensor or its transpose, also a tensor. -/
def to_tensor (img : Img) : Except Err Kind :=
  if imageTypeOk img then .ok .tensorK else .error .unsupportedType

/-- Lines 173-185: `resize` dispatch. -/
def resize (img : Img) : Except Err Backend :=
  if imageTypeOk img then
    if isPilImage img then .ok .pilB
    else if isTensorImage img then .ok .tB
    else .ok .cv2B
  else .error .unsupportedType

/-- Lines 242-254: `pad` dispatch. -/
def pad (img : Img) : Except Err Backend :=
  if imageTypeOk img then
    if isPilImage img then .ok .pilB
    else if isTensorImage img then .ok .tB
    else .ok .cv2B
  else .error .unsupportedType

/-- Lines 286-298: `crop` dispatch. -/
def crop (img : Img) : Except Err Backend :=
  if imageTypeOk img then
    if isPilImage img then .ok .pilB
    else if isTensorImage img then .ok .tB
    else .ok .cv2B
  else .error .unsupportedType

/-- Lines 324-336: `center_crop` dispatch. -/
def center_crop (img : Img) : Except Err Backend :=
  if imageTypeOk img then
    if isPilImage img then .ok .pilB
    else if isTensorImage img then .ok .tB
    else .ok .cv2B
  else .error .unsupportedType

/-- Lines 361-373: `hflip` dispatch. -/
def hflip (img : Img) : Except Err Backend :=
  if imageTypeOk img then
    if isPilImage img then .ok .pilB
    else if isTensorImage img then .ok .tB
    else .ok .cv2B
  else .error .unsupportedType

/-- Lines 398-410: `vflip` dispatch. -/
def vflip (img : Img) : Except Err Backend :=
  if imageTypeOk img then
    if isPilImage img then .ok .pilB
    else if isTensorImage img then .ok .tB
    else .ok .cv2B
  else .error .unsupportedType

/-- Lines 452-464: `adjust_brightness` dispatch (pil, then numpy → cv2,
otherwise tensor). -/
def adjust_brightness (img : Img) : Except Err Backend :=
  if imageTypeOk img then
    if isPilImage img then .ok .pilB
    else if isNumpyImage img then .ok .cv2B
    else .ok .tB
  else .error .unsupportedType

/-- Lines 491-503: `adjust_contrast` dispatch. -/
def adjust_contrast (img : Img) : Except Err Backend :=
  if imageTypeOk img then
    if isPilImage img then .ok .pilB
    else if isNumpyImage img then .ok .cv2B
    else .ok .tB
  else .error .unsupportedType

/-- Lines 533-545: `adjust_saturation` dispatch. -/
def adjust_saturation (img : Img) : Except Err Backend :=
  if imageTypeOk img then
    if isPilImage img then .ok .pilB
    else if isNumpyImage img then .ok .cv2B
    else .ok .tB
  else .error .unsupportedType

/-- Lines 582-594: `adjust_hue` dispatch. -/
def adjust_hue (img : Img) : Except Err Backend :=
  if imageTypeOk img then
    if isPilImage img then .ok .pilB
    else if isNumpyImage img then .ok .cv2B
    else .ok .tB
  else .error .unsupportedType

/-- Lines 815-832: `rotate` dispatch. -/
def rotate (img : Img) : Except Err Backend :=
  if imageTypeOk img then
    if isPilImage img then .ok .pilB
    else if isTensorImage img then .ok .tB
    else .ok .cv2B
  else .error .unsupportedType

/-- Lines 925-941: `perspective` dispatch. -/
def perspective (img : Img) : Except Err Backend :=
  if imageTypeOk img then
    if isPilImage img then .ok .pilB
    else if isTensorImage img then .ok .tB
    else .ok .cv2B
  else .error .unsupportedType

/-- Lines 970-982: `to_grayscale` dispatch. -/
def to_grayscale (img : Img) : Except Err Backend :=
  if imageTypeOk img then
    if isPilImage img then .ok .pilB
    else if isTensorImage img then .ok .tB
    else .ok .cv2B
  else .error .unsupportedType

/-- Lines 1022-1028: `normalize` dispatch. There is no image-type guard:
a tensor goes to the tensor backend, and anything else — a PIL image
after conversion to a float ndarray (line 1026), an ndarray of any rank,
or an unrecognized value — is handed to the cv2 backend. The function
never raises an image-type error. -/
def normalize (img : Img) : Backend :=
  if isTensorImage img then .tB else .cv2B

/-- Lines 1084-1089: `erase` dispatch. There is no image-type guard:
tensors go to the tensor backend, PIL images to the pil backend, and
everything else to the cv2 backend. -/
def erase (img : Img) : Backend :=
  if isTensorImage img then .tB
  else if isPilImage img then .pilB
  else .cv2B

/-- The shear argument of `affine`: a single number or a sequence. -/
inductive ShearArg where
  | scalar (v : ℚ)
  | seq (l : List ℚ)
  deriving DecidableEq

/-- Lines 710-722 of `affine`: normalization of the shear argument.
A scalar v first becomes `[v, 0.0]`; then a length-1 sequence is
broadcast to both axes; finally a remaining length other than 2 raises
(spec taxonomy: InvalidArgument). -/
def normalizeShear (shear : ShearArg) : Except Err (List ℚ) :=
  let l0 := match shear with
    | .scalar v => [v, 0]
    | .seq l => l
  let l1 := if l0.length = 1 then [l0.headD 0, l0.headD 0] else l0
  if l1.length ≠ 2 then .error .invalidArgument else .ok l1

/-- The backend call made by `affine`, recorded as the backend chosen
together with the center handed on: for the pil and tensor branches the
center given to `_get_affine_matrix`, for the cv2 branch the center
passed to `F_cv2.affine` (which builds the matrix itself). -/
structure AffineCall where
  backend : Backend
  center : ℚ × ℚ
  deriving DecidableEq

/-- Lines 677-761: the `affine` public operation. The image-type guard
runs first (line 677); then the parameter checks in source order
(translate length, positive scale, shear normalization); then the
per-representation branch computes the center convention:

* pil branch (727-735): `width, height = img.size`; a missing center
  defaults to `[width * 0.5, height * 0.5]`.
* ndarray branch (737-747): `width, height = img.shape[0:2]` — note the
  shape of an H×W×C array is read with `shape[0]` bound to `width` —
  and a missing center defaults to `(width * 0.5, height * 0.5)`.
* tensor branch (749-759): `height, width = img.shape[-1], img.shape[-2]`
  and the explicit center is re-expressed against the midpoint as
  `[c - s * 0.5 for c, s in zip(center, [width, height])]`; a missing
  center yields the offset `[0.0, 0.0]`.

The matrix handed to the pil and tensor backends is
`_get_affine_matrix` applied to the recorded center (the builder itself
is modelled separately over `ℝ`). The final `unreached()` (line 761)
is not reachable once the guard has passed. -/
def affine (img : Img) (angle : ℚ) (translate : List ℚ) (scale : ℚ)
    (shear : ShearArg) (center : Option (ℚ × ℚ)) : Except Err AffineCall :=
  if imageTypeOk img then
    if translate.length ≠ 2 then .error .invalidArgument
    else if scale ≤ 0 then .error .invalidArgument
    else match normalizeShear shear with
      | .error e => .error e
      | .ok _ =>
        match img with
        | .pil w h =>
            .ok ⟨.pilB, center.getD ((w : ℚ) * 0.5, (h : ℚ) * 0.5)⟩
        | .ndarray shape =>
            .ok ⟨.cv2B,
              center.getD (((shape.getD 0 0 : ℕ) : ℚ) * 0.5,
                           ((shape.getD 1 0 : ℕ) : ℚ) * 0.5)⟩
        | .tensor shape =>
            .ok ⟨.tB,
              match center with
              | none => (0, 0)
              | some p =>
                  (p.1 - ((shape.getD (shape.length - 2) 0 : ℕ) : ℚ) * 0.5,
                   p.2 - ((shape.getD (shape.length - 1) 0 : ℕ) : ℚ) * 0.5)⟩
        | .other => .error .unsupportedType
  else .error .unsupportedType

/-! ## Kind preservation and classification-first properties -/

/-- The classification test succeeds exactly on the values that have a
representation kind. -/
theorem imageTypeOk_iff_kindOf (img : Img) :
    imageTypeOk img = true ↔ (kindOf img).isSome := by
  cases img <;>
    simp [imageTypeOk, isPilImage, isNumpyImage, isTensorImage, kindOf]

/-- The conjunction stating, for a classified image of kind `k`, how the
representation kind of every public operation's result relates to `k`:
every operation other than `to_tensor` and `normalize` returns a value
of kind `k`; `to_tensor` always returns a tensor-image; `normalize`
returns `k` for array- and tensor-images but an array-image for a
grid-image. -/
def KindPreservation (img : Img) (k : Kind) : Prop :=
  (resize img).map backendKind = .ok k ∧
  (pad img).map backendKind = .ok k ∧
  (crop img).map backendKind = .ok k ∧
  (center_crop img).map backendKind = .ok k ∧
  (hflip img).map backendKind = .ok k ∧
  (vflip img).map backendKind = .ok k ∧
  (adjust_brightness img).map backendKind = .ok k ∧
  (adjust_contrast img).map backendKind = .ok k ∧
  (adjust_saturation img).map backendKind = .ok k ∧
  (adjust_hue img).map backendKind = .ok k ∧
  (rotate img).map backendKind = .ok k ∧
  (to_grayscale img).map backendKind = .ok k ∧
  (perspective img).map backendKind = .ok k ∧
  (∀ angle translate scale shear center r,
      affine img angle translate scale shear center = .ok r →
      backendKind r.backend = k) ∧
  backendKind (erase img) = k ∧
  to_tensor img = .ok Kind.tensorK ∧
  backendKind (normalize img) = (if k = Kind.grid then Kind.array else k)

/-- The conjunction stating what every public operation does on a value
that is none of the three recognized representations: every operation
except `normalize` and `erase` rejects it with `UnsupportedType` before
any parameter work (for `affine`, for all parameter values, valid or
not), while `normalize` and `erase` hand the value to the cv2 backend
without raising any classification error. -/
def UnsupportedRejected (img : Img) : Prop :=
  to_tensor img = .error .unsupportedType ∧
  resize img = .error .unsupportedType ∧
  pad img = .error .unsupportedType ∧
  crop img = .error .unsupportedType ∧
  center_crop img = .error .unsupportedType ∧
  hflip img = .error .unsupportedType ∧
  vflip img = .error .unsupportedType ∧
  adjust_brightness img = .error .unsupportedType ∧
  adjust_contrast img = .error .unsupportedType ∧
  adjust_saturation img = .error .unsupportedType ∧
  adjust_hue img = .error .unsupportedType ∧
  rotate img = .error .unsupportedType ∧
  to_grayscale img = .error .unsupportedType ∧
  perspective img = .error .unsupportedType ∧
  (∀ angle translate scale shear center,
      affine img angle translate scale shear center
        = .error .unsupportedType) ∧
  normalize img = .cv2B ∧
  erase img = .cv2B

/-- C1 counterexample: `normalize` applied to a grid-image does not
return a grid-image — the source converts the PIL image to a float
ndarray (line 1026) and calls the cv2 backend, whose result is an
array-image; `to_tensor` applied to a grid-image likewise returns a
tensor-image, not a grid-image. -/
theorem normalize_changes_grid_kind :
    backendKind (normalize (Img.pil 300 256)) = Kind.array ∧
    Kind.array ≠ Kind.grid ∧
    to_tensor (Img.pil 300 256) = .ok Kind.tensorK := by
  decide

/-- C1 amended: every public operation except `to_tensor` and
`normalize` returns a value of the same representation kind as its
classified input; `to_tensor` always returns a tensor-image, and
`normalize` preserves the kind of array- and tensor-images but returns
an array-image for a grid-image input. -/
theorem kind_preservation_amended (img : Img) (k : Kind)
    (hk : kindOf img = some k) : KindPreservation img k := by
  cases img with
  | pil w h =>
      simp only [kindOf, Option.some.injEq] at hk
      subst hk
      refine ⟨by simp [resize, imageTypeOk, isPilImage, backendKind, Except.map],
        by simp [pad, imageTypeOk, isPilImage, backendKind, Except.map],
        by simp [crop, imageTypeOk, isPilImage, backendKind, Except.map],
        by simp [center_crop, imageTypeOk, isPilImage, backendKind, Except.map],
        by simp [hflip, imageTypeOk, isPilImage, backendKind, Except.map],
        by simp [vflip, imageTypeOk, isPilImage, backendKind, Except.map],
        by simp [adjust_brightness, imageTypeOk, isPilImage, backendKind, Except.map],
        by simp [adjust_contrast, imageTypeOk, isPilImage, backendKind, Except.map],
        by simp [adjust_saturation, imageTypeOk, isPilImage, backendKind, Except.map],
        by simp [adjust_hue, imageTypeOk, isPilImage, backendKind, Except.map],
        by simp [rotate, imageTypeOk, isPilImage, backendKind, Except.map],
        by simp [to_grayscale, imageTypeOk, isPilImage, backendKind, Except.map],
        by simp [perspective, imageTypeOk, isPilImage, backendKind, Except.map],
        ?_,
        by simp [erase, isTensorImage, isPilImage, backendKind, Except.map],
        by simp [to_tensor, imageTypeOk, isPilImage],
        by simp [normalize, isTensorImage, backendKind, Except.map]⟩
      intro angle translate scale shear center r hr
      simp only [affine, imageTypeOk, isPilImage, Bool.true_or, if_true] at hr
      split at hr
      · exact absurd hr (by simp)
      · split at hr
        · exact absurd hr (by simp)
        · split at hr
          · exact absurd hr (by simp)
          · simp only [Except.ok.injEq] at hr
            subst hr
            rfl
  | ndarray s =>
      have hlen : s.length = 2 ∨ s.length = 3 := by
        by_contra hcon
        simp [kindOf, hcon] at hk
      simp only [kindOf, hlen, if_true, Option.some.injEq] at hk
      subst hk
      have hok : imageTypeOk (Img.ndarray s) = true := by
        simp [imageTypeOk, isNumpyImage]
        omega
      have hnp : isNumpyImage (Img.ndarray s) = true := by
        simp [isNumpyImage]
        omega
      refine ⟨by simp [resize, hok, isPilImage, isTensorImage, backendKind, Except.map],
        by simp [pad, hok, isPilImage, isTensorImage, backendKind, Except.map],
        by simp [crop, hok, isPilImage, isTensorImage, backendKind, Except.map],
        by simp [center_crop, hok, isPilImage, isTensorImage, backendKind, Except.map],
        by simp [hflip, hok, isPilImage, isTensorImage, backendKind, Except.map],
        by simp [vflip, hok, isPilImage, isTensorImage, backendKind, Except.map],
        by simp [adjust_brightness, hok, isPilImage, hnp, backendKind, Except.map],
        by simp [adjust_contrast, hok, isPilImage, hnp, backendKind, Except.map],
        by simp [adjust_saturation, hok, isPilImage, hnp, backendKind, Except.map],
        by simp [adjust_hue, hok, isPilImage, hnp, backendKind, Except.map],
        by simp [rotate, hok, isPilImage, isTensorImage, backendKind, Except.map],
        by simp [to_grayscale, hok, isPilImage, isTensorImage, backendKind, Except.map],
        by simp [perspective, hok, isPilImage, isTensorImage, backendKind, Except.map],
        ?_,
        by simp [erase, isTensorImage, isPilImage, backendKind, Except.map],
        by simp [to_tensor, hok],
        by simp [normalize, isTensorImage, backendKind, Except.map]⟩
      intro angle translate scale shear center r hr
      simp only [affine, hok, if_true] at hr
      split at hr
      · exact absurd hr (by simp)
      · split at hr
        · exact absurd hr (by simp)
        · split at hr
          · exact absurd hr (by simp)
          · simp only [Except.ok.injEq] at hr
            subst hr
            rfl
  | tensor s =>
      simp only [kindOf, Option.some.injEq] at hk
      subst hk
      refine ⟨by simp [resize, imageTypeOk, isPilImage, isTensorImage, backendKind, Except.map],
        by simp [pad, imageTypeOk, isPilImage, isTensorImage, backendKind, Except.map],
        by simp [crop, imageTypeOk, isPilImage, isTensorImage, backendKind, Except.map],
        by simp [center_crop, imageTypeOk, isPilImage, isTensorImage, backendKind, Except.map],
        by simp [hflip, imageTypeOk, isPilImage, isTensorImage, backendKind, Except.map],
        by simp [vflip, imageTypeOk, isPilImage, isTensorImage, backendKind, Except.map],
        by simp [adjust_brightness, imageTypeOk, isPilImage, isNumpyImage,
          isTensorImage, backendKind, Except.map],
        by simp [adjust_contrast, imageTypeOk, isPilImage, isNumpyImage,
          isTensorImage, backendKind, Except.map],
        by simp [adjust_saturation, imageTypeOk, isPilImage, isNumpyImage,
          isTensorImage, backendKind, Except.map],
        by simp [adjust_hue, imageTypeOk, isPilImage, isNumpyImage,
          isTensorImage, backendKind, Except.map],
        by simp [rotate, imageTypeOk, isPilImage, isTensorImage, backendKind, Except.map],
        by simp [to_grayscale, imageTypeOk, isPilImage, isTensorImage, backendKind, Except.map],
        by simp [perspective, imageTypeOk, isPilImage, isTensorImage, backendKind, Except.map],
        ?_,
        by simp [erase, isTensorImage, backendKind, Except.map],
        by simp [to_tensor, imageTypeOk, isTensorImage],
        by simp [normalize, isTensorImage, backendKind, Except.map]⟩
      intro angle translate scale shear center r hr
      simp only [affine, imageTypeOk, isPilImage, isNumpyImage, isTensorImage,
        Bool.or_true, if_true] at hr
      split at hr
      · exact absurd hr (by simp)
      · split at hr
        · exact absurd hr (by simp)
        · split at hr
          · exact absurd hr (by simp)
          · simp only [Except.ok.injEq] at hr
            subst hr
            rfl
  | other => simp [kindOf] at hk

/-- C1 witness: the amended kind-preservation conjunction holds at the
concrete grid-image of size 300×256. -/
theorem kind_preservation_amended_witness :
    kindOf (Img.pil 300 256) = some Kind.grid ∧
    KindPreservation (Img.pil 300 256) Kind.grid :=
  ⟨by decide, kind_preservation_amended (Img.pil 300 256) Kind.grid (by decide)⟩

/-- C2 counterexample: `normalize` and `erase` perform no image
classification; a rank-4 numeric buffer — none of the three recognized
representations — is routed to the cv2 backend instead of being
rejected with `UnsupportedType`. -/
theorem normalize_erase_skip_type_check :
    kindOf (Img.ndarray [2, 2, 2, 2]) = none ∧
    normalize (Img.ndarray [2, 2, 2, 2]) = Backend.cv2B ∧
    erase (Img.ndarray [2, 2, 2, 2]) = Backend.cv2B := by
  decide

/-- C2 amended: every public operation except `normalize` and `erase`
raises `UnsupportedType` on an unrecognized value before any parameter
work (for `affine`, for every parameter assignment); `normalize` and
`erase` instead hand the value to the cv2 backend without any
classification check. -/
theorem unsupported_type_rejected_first (img : Img)
    (hk : kindOf img = none) : UnsupportedRejected img := by
  have hok : imageTypeOk img = false := by
    by_contra hcon
    have : imageTypeOk img = true := by
      cases h : imageTypeOk img
      · exact absurd h hcon
      · rfl
    rw [imageTypeOk_iff_kindOf] at this
    rw [hk] at this
    simp at this
  have hpil : isPilImage img = false := by
    cases img <;> simp [kindOf] at hk <;> simp [isPilImage]
  have htens : isTensorImage img = false := by
    cases img <;> simp [kindOf] at hk <;> simp [isTensorImage]
  refine ⟨by simp [to_tensor, hok],
    by simp [resize, hok], by simp [pad, hok], by simp [crop, hok],
    by simp [center_crop, hok], by simp [hflip, hok], by simp [vflip, hok],
    by simp [adjust_brightness, hok], by simp [adjust_contrast, hok],
    by simp [adjust_saturation, hok], by simp [adjust_hue, hok],
    by simp [rotate, hok], by simp [to_grayscale, hok],
    by simp [perspective, hok],
    fun angle translate scale shear center => by simp [affine, hok],
    by simp [normalize, htens],
    by simp [erase, htens, hpil]⟩

/-- C2 witness: the amended rejection conjunction holds at the concrete
rank-4 buffer of shape 2×2×2×2. -/
theorem unsupported_type_rejected_first_witness :
    kindOf (Img.ndarray [2, 2, 2, 2]) = none ∧
    UnsupportedRejected (Img.ndarray [2, 2, 2, 2]) :=
  ⟨by decide, unsupported_type_rejected_first (Img.ndarray [2, 2, 2, 2]) (by decide)⟩

/-- C3: with `center` omitted, the pil branch of `affine` uses the
un-offset midpoint `(width*0.5, height*0.5)` — `(150, 128)` for a
300-wide, 256-high image — but the ndarray branch reads
`img.shape[0:2]`, which for an H×W×C array is `(H, W)`, as
`(width, height)`: for the same 300-wide, 256-high image (an array of
shape `[256, 300, 3]`) it computes the swapped center `(128, 150)`,
contradicting the claimed `(150, 128)` and the function's own
documentation that the default is the center of the image. -/
theorem affine_default_center_swapped_ndarray :
    affine (Img.pil 300 256) 0 [0, 0] 1 (.scalar 0) none
      = .ok ⟨Backend.pilB, (150, 128)⟩ ∧
    affine (Img.ndarray [256, 300, 3]) 0 [0, 0] 1 (.scalar 0) none
      = .ok ⟨Backend.cv2B, (128, 150)⟩ ∧
    ((128 : ℚ), (150 : ℚ)) ≠ ((150 : ℚ), (128 : ℚ)) := by
  refine ⟨?_, ?_, ?_⟩ <;>
    norm_num [affine, imageTypeOk, isPilImage, isNumpyImage, isTensorImage,
      normalizeShear, AffineCall.mk.injEq, Prod.ext_iff]

/-- C9: for a tensor-image of shape `[3, 2, 4]` (logical width 4,
height 2) with explicit center `(10, 20)`, the tensor branch of
`affine` binds `height, width = img.shape[-1], img.shape[-2]` — that
is, `width` is bound to the logical height 2 — and passes the offset
`(10 - 2*0.5, 20 - 4*0.5) = (9, 18)` to the matrix builder, not the
claimed `(10 - 4*0.5, 20 - 2*0.5) = (8, 19)`; with center omitted the
offset used is `(0, 0)`. -/
theorem affine_tensor_center_offset_swapped :
    affine (Img.tensor [3, 2, 4]) 0 [0, 0] 1 (.scalar 0) (some (10, 20))
      = .ok ⟨Backend.tB, (9, 18)⟩ ∧
    ((9 : ℚ), (18 : ℚ)) ≠ ((10 - 4 * 0.5 : ℚ), (20 - 2 * 0.5 : ℚ)) ∧
    affine (Img.tensor [3, 2, 4]) 0 [0, 0] 1 (.scalar 0) none
      = .ok ⟨Backend.tB, (0, 0)⟩ := by
  refine ⟨?_, ?_, ?_⟩ <;>
    norm_num [affine, imageTypeOk, isPilImage, isNumpyImage, isTensorImage,
      normalizeShear, AffineCall.mk.injEq, Prod.ext_iff]

/-- C7: shear normalization in `affine`: a scalar v becomes `[v, 0]`;
a length-1 sequence `[v]` is broadcast to `[v, v]`; a length-2 sequence
passes through; any other length is rejected with `InvalidArgument`,
and `affine` then returns that error without reaching any backend
branch. -/
theorem shear_normalization :
    (∀ v : ℚ, normalizeShear (.scalar v) = .ok [v, 0]) ∧
    (∀ v : ℚ, normalizeShear (.seq [v]) = .ok [v, v]) ∧
    (∀ v w : ℚ, normalizeShear (.seq [v, w]) = .ok [v, w]) ∧
    (∀ l : List ℚ, l.length ≠ 1 → l.length ≠ 2 →
        normalizeShear (.seq l) = .error .invalidArgument) ∧
    (∀ (img : Img) (k : Kind) (angle : ℚ) (translate : List ℚ) (scale : ℚ)
        (l : List ℚ) (center : Option (ℚ × ℚ)),
        kindOf img = some k → translate.length = 2 → 0 < scale →
        l.length ≠ 1 → l.length ≠ 2 →
        affine img angle translate scale (.seq l) center
          = .error .invalidArgument) := by
  refine ⟨fun v => by simp [normalizeShear],
    fun v => by simp [normalizeShear],
    fun v w => by simp [normalizeShear],
    fun l h1 h2 => by simp [normalizeShear, h1, h2],
    fun img k angle translate scale l center hk ht hs h1 h2 => ?_⟩
  have hok : imageTypeOk img = true := by
    rw [imageTypeOk_iff_kindOf, hk]
    rfl
  have hshear : normalizeShear (.seq l) = .error .invalidArgument := by
    simp [normalizeShear, h1, h2]
  simp [affine, hok, ht, hshear, not_le.mpr hs]

/-- C7w: the normalization conjunction applied at concrete
inputs, with the bad-length case at shear `[5, 10, 15]` on a grid
image. -/
theorem shear_normalization_witness :
    normalizeShear (.scalar 5) = .ok [5, 0] ∧
    normalizeShear (.seq [5]) = .ok [5, 5] ∧
    normalizeShear (.seq [5, 10]) = .ok [5, 10] ∧
    affine (Img.pil 300 256) 0 [0, 0] 1 (.seq [5, 10, 15]) none
      = .error .invalidArgument :=
  ⟨shear_normalization.1 5, shear_normalization.2.1 5,
    shear_normalization.2.2.1 5 10,
    shear_normalization.2.2.2.2 (Img.pil 300 256) Kind.grid 0 [0, 0] 1
      [5, 10, 15] none (by decide) (by decide) (by decide) (by decide) (by decide)⟩

/-! ## The perspective coefficient solver

`_get_perspective_coeffs` (lines 835-877) builds an 8×8 linear system
and solves it with least squares. The matrix and right-hand side are
embedded below; the points are modelled over `ℚ` (the source documents
them as integer pairs). -/

/-- Evaluation of an 8-entry vector at index 5 (the library's simp set
stops at index four). -/
theorem vec8_five {α : Type} (x0 x1 x2 x3 x4 x5 x6 x7 : α) :
    (![x0, x1, x2, x3, x4, x5, x6, x7]) (5 : Fin 8) = x5 := rfl

/-- Evaluation of an 8-entry vector at index 6. -/
theorem vec8_six {α : Type} (x0 x1 x2 x3 x4 x5 x6 x7 : α) :
    (![x0, x1, x2, x3, x4, x5, x6, x7]) (6 : Fin 8) = x6 := rfl

/-- Evaluation of an 8-entry vector at index 7. -/
theorem vec8_seven {α : Type} (x0 x1 x2 x3 x4 x5 x6 x7 : α) :
    (![x0, x1, x2, x3, x4, x5, x6, x7]) (7 : Fin 8) = x7 := rfl

/-- Lines 852-861: the row `a_matrix[2*i]` contributed by the i-th
correspondence, where (as in the source's loop) `p1` is the endpoint
and `p2` the startpoint:
`[p1x, p1y, 1, 0, 0, 0, -p2x*p1x, -p2x*p1y]` over the unknown
coefficient vector `(a,b,c,d,e,f,g,h)`. -/
def perspRow0 (p2 p1 : ℚ × ℚ) : Fin 8 → ℚ :=
  ![p1.1, p1.2, 1, 0, 0, 0, -p2.1 * p1.1, -p2.1 * p1.2]

/-- Lines 862-871: the row `a_matrix[2*i + 1]`:
`[0, 0, 0, p1x, p1y, 1, -p2y*p1x, -p2y*p1y]`. -/
def perspRow1 (p2 p1 : ℚ × ℚ) : Fin 8 → ℚ :=
  ![0, 0, 0, p1.1, p1.2, 1, -p2.2 * p1.1, -p2.2 * p1.2]

/-- Lines 849-871: the matrix `a_matrix` built by
`_get_perspective_coeffs`: for each of the four correspondences
(`zip(endpoints, startpoints)`), rows `2*i` and `2*i + 1`. -/
def a_matrix (startpoints endpoints : Fin 4 → ℚ × ℚ) :
    Matrix (Fin 8) (Fin 8) ℚ :=
  Matrix.of
    ![perspRow0 (startpoints 0) (endpoints 0),
      perspRow1 (startpoints 0) (endpoints 0),
      perspRow0 (startpoints 1) (endpoints 1),
      perspRow1 (startpoints 1) (endpoints 1),
      perspRow0 (startpoints 2) (endpoints 2),
      perspRow1 (startpoints 2) (endpoints 2),
      perspRow0 (startpoints 3) (endpoints 3),
      perspRow1 (startpoints 3) (endpoints 3)]

/-- Line 873: `b_matrix`, the startpoints flattened to 8 entries. -/
def b_matrix (startpoints : Fin 4 → ℚ × ℚ) : Fin 8 → ℚ :=
  ![(startpoints 0).1, (startpoints 0).2, (startpoints 1).1, (startpoints 1).2,
    (startpoints 2).1, (startpoints 2).2, (startpoints 3).1, (startpoints 3).2]

/-- Line 874. Modelled from the spec: the least-squares routine
`np.linalg.lstsq` is external to the repository; on a nonsingular
square system it returns the unique exact solution, so the coefficient
vector that `_get_perspective_coeffs` returns for a nonsingular system
is characterized as a vector solving `a_matrix ⬝ x = b_matrix`. -/
def solvesPerspectiveSystem (startpoints endpoints : Fin 4 → ℚ × ℚ)
    (x : Fin 8 → ℚ) : Prop :=
  (a_matrix startpoints endpoints).mulVec x = b_matrix startpoints

/-- The identity coefficient octuple `[1,0,0,0,1,0,0,0]`. -/
def perspIdentity : Fin 8 → ℚ := ![1, 0, 0, 0, 1, 0, 0, 0]

/-- Following the spec's words (§4.4): the x-output row that would
encode the projective relation
`dst·(g·src_x + h·src_y + 1) = a·src_x + b·src_y + c`, i.e. with the
startpoint (src) coordinates inside the matrix row and the endpoint
(dst) coordinate multiplying the denominator terms — to be compared
with `perspRow0`, the row the source actually builds. -/
def specRow0 (src dst : ℚ × ℚ) : Fin 8 → ℚ :=
  ![src.1, src.2, 1, 0, 0, 0, -dst.1 * src.1, -dst.1 * src.2]

/-- The corners of the unit square, in the operation's documented
clockwise order (top-left, top-right, bottom-right, bottom-left). -/
def sqStart : Fin 4 → ℚ × ℚ := ![(0, 0), (1, 0), (1, 1), (0, 1)]

/-- The unit square corners translated right by one. -/
def sqShift : Fin 4 → ℚ × ℚ := ![(1, 0), (2, 0), (2, 1), (1, 1)]

/-- A left inverse of `a_matrix sqStart sqStart`, witnessing that the
identity configuration on the unit square is a nonsingular system. -/
def Mw : Matrix (Fin 8) (Fin 8) ℚ :=
  Matrix.of
    ![![-1, -1, 1, 1, 0, -1, 0, 1],
      ![-1, 0, 0, 0, 0, 0, 1, 0],
      ![1, 0, 0, 0, 0, 0, 0, 0],
      ![0, -1, 0, 1, 0, 0, 0, 0],
      ![-1, -1, 1, 0, -1, 0, 1, 1],
      ![0, 1, 0, 0, 0, 0, 0, 0],
      ![0, -1, 0, 1, 0, -1, 0, 1],
      ![-1, 0, 1, 0, -1, 0, 1, 0]]

/-- The eight scalar row equations of the system
`a_matrix ⬝ (a,b,c,d,e,f,g,h) = b_matrix`: for the i-th correspondence,
`start·(g·end_x + h·end_y + 1) = a·end_x + b·end_y + c` in subtracted
form, and the symmetric y-output equation. -/
theorem solves_system_rows (sp ep : Fin 4 → ℚ × ℚ) (a b c d e f g h : ℚ)
    (hx : solvesPerspectiveSystem sp ep ![a, b, c, d, e, f, g, h]) :
    ∀ i : Fin 4,
      ((ep i).1 * a + (ep i).2 * b + c
          - (sp i).1 * (ep i).1 * g - (sp i).1 * (ep i).2 * h = (sp i).1 ∧
      (ep i).1 * d + (ep i).2 * e + f
          - (sp i).2 * (ep i).1 * g - (sp i).2 * (ep i).2 * h = (sp i).2) := by
  have h0 : Matrix.dotProduct (perspRow0 (sp 0) (ep 0)) ![a, b, c, d, e, f, g, h]
      = (sp 0).1 := congrFun hx 0
  have h1 : Matrix.dotProduct (perspRow1 (sp 0) (ep 0)) ![a, b, c, d, e, f, g, h]
      = (sp 0).2 := congrFun hx 1
  have h2 : Matrix.dotProduct (perspRow0 (sp 1) (ep 1)) ![a, b, c, d, e, f, g, h]
      = (sp 1).1 := congrFun hx 2
  have h3 : Matrix.dotProduct (perspRow1 (sp 1) (ep 1)) ![a, b, c, d, e, f, g, h]
      = (sp 1).2 := congrFun hx 3
  have h4 : Matrix.dotProduct (perspRow0 (sp 2) (ep 2)) ![a, b, c, d, e, f, g, h]
      = (sp 2).1 := congrFun hx 4
  have h5 : Matrix.dotProduct (perspRow1 (sp 2) (ep 2)) ![a, b, c, d, e, f, g, h]
      = (sp 2).2 := congrFun hx 5
  have h6 : Matrix.dotProduct (perspRow0 (sp 3) (ep 3)) ![a, b, c, d, e, f, g, h]
      = (sp 3).1 := congrFun hx 6
  have h7 : Matrix.dotProduct (perspRow1 (sp 3) (ep 3)) ![a, b, c, d, e, f, g, h]
      = (sp 3).2 := congrFun hx 7
  simp [perspRow0, perspRow1, Matrix.dotProduct, Fin.sum_univ_eight,
    vec8_five, vec8_six, vec8_seven] at h0 h1 h2 h3 h4 h5 h6 h7
  have k0 : (ep 0).1 * a + (ep 0).2 * b + c
      - (sp 0).1 * (ep 0).1 * g - (sp 0).1 * (ep 0).2 * h = (sp 0).1 := by
    linear_combination h0
  have k1 : (ep 0).1 * d + (ep 0).2 * e + f
      - (sp 0).2 * (ep 0).1 * g - (sp 0).2 * (ep 0).2 * h = (sp 0).2 := by
    linear_combination h1
  have k2 : (ep 1).1 * a + (ep 1).2 * b + c
      - (sp 1).1 * (ep 1).1 * g - (sp 1).1 * (ep 1).2 * h = (sp 1).1 := by
    linear_combination h2
  have k3 : (ep 1).1 * d + (ep 1).2 * e + f
      - (sp 1).2 * (ep 1).1 * g - (sp 1).2 * (ep 1).2 * h = (sp 1).2 := by
    linear_combination h3
  have k4 : (ep 2).1 * a + (ep 2).2 * b + c
      - (sp 2).1 * (ep 2).1 * g - (sp 2).1 * (ep 2).2 * h = (sp 2).1 := by
    linear_combination h4
  have k5 : (ep 2).1 * d + (ep 2).2 * e + f
      - (sp 2).2 * (ep 2).1 * g - (sp 2).2 * (ep 2).2 * h = (sp 2).2 := by
    linear_combination h5
  have k6 : (ep 3).1 * a + (ep 3).2 * b + c
      - (sp 3).1 * (ep 3).1 * g - (sp 3).1 * (ep 3).2 * h = (sp 3).1 := by
    linear_combination h6
  have k7 : (ep 3).1 * d + (ep 3).2 * e + f
      - (sp 3).2 * (ep 3).1 * g - (sp 3).2 * (ep 3).2 * h = (sp 3).2 := by
    linear_combination h7
  intro i
  fin_cases i
  · exact ⟨k0, k1⟩
  · exact ⟨k2, k3⟩
  · exact ⟨k4, k5⟩
  · exact ⟨k6, k7⟩

/-- When endpoints equal startpoints, the identity coefficient vector
solves the system exactly, for any four points. -/
theorem persp_identity_solves (sp : Fin 4 → ℚ × ℚ) :
    solvesPerspectiveSystem sp sp perspIdentity := by
  show Matrix.mulVec _ _ = _
  funext r
  fin_cases r
  · show Matrix.dotProduct (perspRow0 (sp 0) (sp 0)) perspIdentity = (sp 0).1
    simp [perspRow0, perspIdentity, Matrix.dotProduct, Fin.sum_univ_eight,
      vec8_five, vec8_six, vec8_seven]
  · show Matrix.dotProduct (perspRow1 (sp 0) (sp 0)) perspIdentity = (sp 0).2
    simp [perspRow1, perspIdentity, Matrix.dotProduct, Fin.sum_univ_eight,
      vec8_five, vec8_six, vec8_seven]
  · show Matrix.dotProduct (perspRow0 (sp 1) (sp 1)) perspIdentity = (sp 1).1
    simp [perspRow0, perspIdentity, Matrix.dotProduct, Fin.sum_univ_eight,
      vec8_five, vec8_six, vec8_seven]
  · show Matrix.dotProduct (perspRow1 (sp 1) (sp 1)) perspIdentity = (sp 1).2
    simp [perspRow1, perspIdentity, Matrix.dotProduct, Fin.sum_univ_eight,
      vec8_five, vec8_six, vec8_seven]
  · show Matrix.dotProduct (perspRow0 (sp 2) (sp 2)) perspIdentity = (sp 2).1
    simp [perspRow0, perspIdentity, Matrix.dotProduct, Fin.sum_univ_eight,
      vec8_five, vec8_six, vec8_seven]
  · show Matrix.dotProduct (perspRow1 (sp 2) (sp 2)) perspIdentity = (sp 2).2
    simp [perspRow1, perspIdentity, Matrix.dotProduct, Fin.sum_univ_eight,
      vec8_five, vec8_six, vec8_seven]
  · show Matrix.dotProduct (perspRow0 (sp 3) (sp 3)) perspIdentity = (sp 3).1
    simp [perspRow0, perspIdentity, Matrix.dotProduct, Fin.sum_univ_eight,
      vec8_five, vec8_six, vec8_seven]
  · show Matrix.dotProduct (perspRow1 (sp 3) (sp 3)) perspIdentity = (sp 3).2
    simp [perspRow1, perspIdentity, Matrix.dotProduct, Fin.sum_univ_eight,
      vec8_five, vec8_six, vec8_seven]

/-- C6 counterexample: the first row the solver builds for the
correspondence startpoint `(0,0)` → endpoint `(1,0)` is
`perspRow0 = [1, 0, 1, 0, 0, 0, 0, 0]`, with the endpoint coordinates
inside the row; the spec's stated projective relation
`dst·(g·src_x+h·src_y+1) = a·src_x+b·src_y+c` would instead produce
the row `[0, 0, 1, 0, 0, 0, 0, 0]`, so the rows are not built as the
spec's relation states (the roles of src and dst are exchanged). -/
theorem persp_row_differs_from_spec_row :
    a_matrix sqStart sqShift 0 = perspRow0 (sqStart 0) (sqShift 0) ∧
    perspRow0 ((0, 0) : ℚ × ℚ) ((1, 0) : ℚ × ℚ)
      ≠ specRow0 ((0, 0) : ℚ × ℚ) ((1, 0) : ℚ × ℚ) := by
  constructor
  · rfl
  · intro hEq
    have h0 := congrFun hEq 0
    simp [perspRow0, specRow0] at h0

/-- C6 amended: for every solution of the nonsingular system the solver
builds (its rows encode `src·(g·dst_x+h·dst_y+1) = a·dst_x+b·dst_y+c`,
with src a startpoint and dst the corresponding endpoint), each of the
four point pairs satisfies the inverse-mapping relation
`src_x = (a·dst_x + b·dst_y + c) / (g·dst_x + h·dst_y + 1)` and
`src_y = (d·dst_x + e·dst_y + f) / (g·dst_x + h·dst_y + 1)` whenever
the denominator is nonzero. -/
theorem persp_coeffs_inverse_relation (sp ep : Fin 4 → ℚ × ℚ)
    (a b c d e f g h : ℚ)
    (hx : solvesPerspectiveSystem sp ep ![a, b, c, d, e, f, g, h])
    (i : Fin 4)
    (hden : g * (ep i).1 + h * (ep i).2 + 1 ≠ 0) :
    (sp i).1 = (a * (ep i).1 + b * (ep i).2 + c)
        / (g * (ep i).1 + h * (ep i).2 + 1) ∧
    (sp i).2 = (d * (ep i).1 + e * (ep i).2 + f)
        / (g * (ep i).1 + h * (ep i).2 + 1) := by
  obtain ⟨hr1, hr2⟩ := solves_system_rows sp ep a b c d e f g h hx i
  constructor
  · rw [eq_div_iff hden]
    linear_combination -hr1
  · rw [eq_div_iff hden]
    linear_combination -hr2

/-- C6w: for the unit square translated right by one, the translation
coefficients `(1,0,-1,0,1,0,0,0)` solve the system, the denominator at
the first pair is 1, and the inverse-mapping relation follows from the
theorem. -/
theorem persp_coeffs_inverse_relation_witness :
    solvesPerspectiveSystem sqStart sqShift ![1, 0, -1, 0, 1, 0, 0, 0] ∧
    (0 : ℚ) * (sqShift 0).1 + (0 : ℚ) * (sqShift 0).2 + 1 ≠ 0 ∧
    ((sqStart 0).1 = (1 * (sqShift 0).1 + 0 * (sqShift 0).2 + -1)
        / (0 * (sqShift 0).1 + 0 * (sqShift 0).2 + 1) ∧
     (sqStart 0).2 = (0 * (sqShift 0).1 + 1 * (sqShift 0).2 + 0)
        / (0 * (sqShift 0).1 + 0 * (sqShift 0).2 + 1)) := by
  have hsolves : solvesPerspectiveSystem sqStart sqShift
      ![1, 0, -1, 0, 1, 0, 0, 0] := by
    show Matrix.mulVec _ _ = _
    funext r
    fin_cases r <;>
      norm_num [a_matrix, b_matrix, perspRow0, perspRow1, sqStart, sqShift,
        Matrix.mulVec, Matrix.dotProduct, Fin.sum_univ_succ, Fin.ext_iff]
  have hden : (0 : ℚ) * (sqShift 0).1 + (0 : ℚ) * (sqShift 0).2 + 1 ≠ 0 := by
    norm_num [sqShift]
  exact ⟨hsolves, hden,
    persp_coeffs_inverse_relation sqStart sqShift 1 0 (-1) 0 1 0 0 0 hsolves 0 hden⟩

/-- C8: if the four endpoints equal the four startpoints and the system
is nonsingular (witnessed by a left inverse `M` of the system matrix),
then the solver's coefficients are exactly the identity octuple
`[1, 0, 0, 0, 1, 0, 0, 0]`. -/
theorem persp_identity_roundtrip (sp : Fin 4 → ℚ × ℚ) (x : Fin 8 → ℚ)
    (M : Matrix (Fin 8) (Fin 8) ℚ)
    (hM : M * a_matrix sp sp = 1)
    (hx : solvesPerspectiveSystem sp sp x) :
    x = perspIdentity := by
  have hid := persp_identity_solves sp
  unfold solvesPerspectiveSystem at hx hid
  have h1 : M.mulVec ((a_matrix sp sp).mulVec x)
      = M.mulVec ((a_matrix sp sp).mulVec perspIdentity) := by
    rw [hx, hid]
  rwa [Matrix.mulVec_mulVec, Matrix.mulVec_mulVec, hM, Matrix.one_mulVec,
    Matrix.one_mulVec] at h1

set_option maxHeartbeats 1000000 in
/-- C8w: on the unit square with endpoints equal to startpoints, `Mw`
is a left inverse of the system matrix, the identity octuple solves the
system, and the theorem concludes it is the returned solution. -/
theorem persp_identity_roundtrip_witness :
    Mw * a_matrix sqStart sqStart = 1 ∧
    solvesPerspectiveSystem sqStart sqStart perspIdentity ∧
    perspIdentity = perspIdentity := by
  have hM : Mw * a_matrix sqStart sqStart = 1 := by
    ext i j
    fin_cases i <;> fin_cases j <;>
      norm_num [Mw, a_matrix, perspRow0, perspRow1, sqStart, Matrix.mul_apply,
        Fin.sum_univ_succ, Matrix.one_apply, Fin.ext_iff]
  have hx : solvesPerspectiveSystem sqStart sqStart perspIdentity :=
    persp_identity_solves sqStart
  exact ⟨hM, hx, persp_identity_roundtrip sqStart perspIdentity Mw hM hx⟩

/-! ## The affine matrix builder

`_get_affine_matrix` (lines 597-625) is the one trigonometric piece of
the engine; it is embedded over `ℝ`. -/

/-- The conversion `math.radians`. -/
noncomputable def radians (x : ℝ) : ℝ := x * (Real.pi / 180)

/-- Lines 597-625: `_get_affine_matrix(center, angle, translate, scale,
shear)`. `rot`, `sx`, `sy` are the angle and the two shear components
in radians; `a`, `b`, `c`, `d` the un-scaled rotation-shear forward
components; the result is the inverse matrix `[d, -b, 0, -c, a, 0]`
divided entrywise by `scale`, with the translation entries obtained by
the `-center - translate` pre-shift and `+center` post-shift. -/
noncomputable def _get_affine_matrix (center : ℝ × ℝ) (angle : ℝ)
    (translate : ℝ × ℝ) (scale : ℝ) (shear : ℝ × ℝ) : List ℝ :=
  let rot := radians angle
  let sx := radians shear.1
  let sy := radians shear.2
  let a := Real.cos (rot - sy) / Real.cos sy
  let b := -Real.cos (rot - sy) * Real.tan sx / Real.cos sy - Real.sin rot
  let c := Real.sin (rot - sy) / Real.cos sy
  let d := -Real.sin (rot - sy) * Real.tan sx / Real.cos sy + Real.cos rot
  let m0 := d / scale
  let m1 := -b / scale
  let m3 := -c / scale
  let m4 := a / scale
  let m2 := m0 * (-center.1 - translate.1) + m1 * (-center.2 - translate.2)
      + center.1
  let m5 := m3 * (-center.1 - translate.1) + m4 * (-center.2 - translate.2)
      + center.2
  [m0, m1, m2, m3, m4, m5]

/-- The determinant of the 2×2 linear block `[[m0, m1], [m3, m4]]` of a
6-coefficient affine matrix `[m0, m1, m2, m3, m4, m5]`. -/
noncomputable def affineBlockDet (m : List ℝ) : ℝ :=
  m.getD 0 0 * m.getD 4 0 - m.getD 1 0 * m.getD 3 0

/-- C4: for every center, angle, translate, positive scale, and shear
with both components away from ±90 degrees, the 2×2 block of the
matrix built by `_get_affine_matrix` has determinant exactly
`1 / scale²`. -/
theorem affine_block_det_inv_scale_sq
    (center translate : ℝ × ℝ) (angle scale : ℝ) (shear : ℝ × ℝ)
    (hscale : 0 < scale)
    (hsx : Real.cos (radians shear.1) ≠ 0)
    (hsy : Real.cos (radians shear.2) ≠ 0) :
    affineBlockDet (_get_affine_matrix center angle translate scale shear)
      = 1 / scale ^ 2 := by
  have hs : scale ≠ 0 := ne_of_gt hscale
  have key : Real.cos (radians angle - radians shear.2) * Real.cos (radians angle)
      + Real.sin (radians angle - radians shear.2) * Real.sin (radians angle)
      = Real.cos (radians shear.2) := by
    rw [← Real.cos_sub]
    have h1 : radians angle - radians shear.2 - radians angle
        = -radians shear.2 := by ring
    rw [h1, Real.cos_neg]
  simp only [_get_affine_matrix, affineBlockDet, List.getD_cons_zero,
    List.getD_cons_succ]
  field_simp
  linear_combination (scale ^ 2 * Real.cos (radians shear.2)) * key

/-- C4w: the determinant identity applied at the concrete input
`center = (0,0)`, `angle = 0`, `translate = (0,0)`, `scale = 1`,
`shear = (0,0)`. -/
theorem affine_block_det_inv_scale_sq_witness :
    (0 : ℝ) < 1 ∧ Real.cos (radians 0) ≠ 0 ∧
    affineBlockDet (_get_affine_matrix (0, 0) 0 (0, 0) 1 (0, 0)) = 1 / 1 ^ 2 :=
  ⟨one_pos, by simp [radians],
    affine_block_det_inv_scale_sq (0, 0) (0, 0) 0 1 (0, 0) one_pos
      (by simp [radians]) (by simp [radians])⟩

/-- C5 counterexample: at angle 90 (with `translate = (0,0)`,
`scale = 1`, `shear = (0,0)` and center `(0,0)`), the built matrix is
the quarter-turn `[0, 1, 0, -1, 0, 0]`, not the identity mapping, so
the round-trip does not hold for every angle. -/
theorem affine_matrix_angle90_not_identity :
    _get_affine_matrix (0, 0) 90 (0, 0) 1 (0, 0) ≠ [1, 0, 0, 0, 1, 0] := by
  intro hEq
  have h0 := congrArg (fun l => l.getD 0 0) hEq
  have hrot : radians 90 = Real.pi / 2 := by
    unfold radians
    ring
  simp only [_get_affine_matrix, List.getD_cons_zero, hrot] at h0
  norm_num [Real.cos_pi_div_two, Real.sin_pi_div_two, Real.tan_zero,
    radians] at h0

/-- C5 amended: with angle 0, `translate = (0,0)`, `scale = 1` and
`shear = (0,0)`, the matrix built around any center is the identity
mapping `[1, 0, 0, 0, 1, 0]`. -/
theorem affine_matrix_identity_at_angle_zero (center : ℝ × ℝ) :
    _get_affine_matrix center 0 (0, 0) 1 (0, 0) = [1, 0, 0, 0, 1, 0] := by
  simp only [_get_affine_matrix, radians]
  norm_num [Real.cos_zero, Real.sin_zero, Real.tan_zero]

/-! ## The tensor branch of `to_tensor` -/

/-- A 3-axis tensor value with its per-element data, for the value-level
behaviour of `to_tensor` on tensor input. -/
structure Tensor3 where
  c : ℕ
  h : ℕ
  w : ℕ
  data : Fin c → Fin h → Fin w → ℝ

/-- `pic.transpose((1, 2, 0))`: axis k of the result is axis
`(1, 2, 0)[k]` of the input, so the result has extents `(h, w, c)` and
`result[i][j][k] = pic[k][i][j]`. No element value is changed. -/
def transpose120 (t : Tensor3) : Tensor3 :=
  ⟨t.h, t.w, t.c, fun i j k => t.data k i j⟩

/-- Python `data_format.lower()`, modelled on the string's characters
(the data-format strings are ASCII). -/
def lowerStr (s : String) : String := ⟨s.data.map Char.toLower⟩

/-- Line 125: the branch of `to_tensor` taken when the input is already
a tensor: `pic if data_format.lower() == 'chw' else
pic.transpose((1, 2, 0))`. -/
def toTensorOnTensor (pic : Tensor3) (data_format : String) : Tensor3 :=
  if lowerStr data_format = "chw" then pic else transpose120 pic

/-- C10: `to_tensor` on an input that is already a tensor returns the
input itself when the data format compares case-insensitively equal to
the string chw, and the input transposed by axes `(1, 2, 0)` otherwise;
in both cases every element value is kept unchanged (no scaling). -/
theorem to_tensor_on_tensor_branch (pic : Tensor3) (data_format : String) :
    (lowerStr data_format = "chw" → toTensorOnTensor pic data_format = pic) ∧
    (lowerStr data_format ≠ "chw" →
        toTensorOnTensor pic data_format = transpose120 pic) ∧
    (∀ i j k, (transpose120 pic).data i j k = pic.data k i j) := by
  refine ⟨fun hdf => ?_, fun hdf => ?_, fun i j k => rfl⟩
  · simp [toTensorOnTensor, hdf]
  · simp [toTensorOnTensor, hdf]

/-- A concrete 1×1×1 tensor value. -/
def picOne : Tensor3 := ⟨1, 1, 1, fun _ _ _ => 0⟩

/-- C10w: the branch behaviour at the concrete formats CHW (upper case,
compares equal to chw after lowering) and HWC (does not). -/
theorem to_tensor_on_tensor_branch_witness :
    (lowerStr "CHW" = "chw" ∧ toTensorOnTensor picOne "CHW" = picOne) ∧
    (lowerStr "HWC" ≠ "chw" ∧
      toTensorOnTensor picOne "HWC" = transpose120 picOne) :=
  ⟨⟨by decide, (to_tensor_on_tensor_branch picOne "CHW").1 (by decide)⟩,
   ⟨by decide, (to_tensor_on_tensor_branch picOne "HWC").2.1 (by decide)⟩⟩

end PaddleF
